import Mathlib

/-!
Verification of the ionic-traces time-conversion bot against its source.

Shallow embedding conventions:
* Instants are integer microsecond counts. A naive wall-clock datetime is
  embedded as the microseconds its reading would denote if read as UTC;
  an aware UTC instant is microseconds since 1970-01-01T00:00:00Z.
  (`dt.datetime` / `Arrow` objects carry microsecond precision.)
* The user table `mbd_user` (src/ionic/schemas.py, class `User`) is a list
  of rows; the primary key is `id`.
* Fallible code is embedded in `Except Unit` (an `Except.error ()` is a
  raised Python exception propagating out of the modelled fragment).
-/

namespace Ionic

/-- Row of the `mbd_user` table (src/ionic/schemas.py, class `User`):
`id` BigInteger primary key, `tz` VARCHAR, `update_id` BigInteger (the
pending registration token), `update_dt` TIMESTAMP (the pending-since
timestamp), here in integer microseconds. -/
structure User where
  id : Int
  tz : String
  update_id : Int
  update_dt : Int
deriving DecidableEq

/-- `REGISTRATION_TIMEOUT = dt.timedelta(minutes=10)` (src/ionic/cfg.py line 52),
in microseconds. -/
def REGISTRATION_TIMEOUT : Int := 600000000

/-- The select in `register_user` (src/ionic/__main__.py lines 195-203):
tokens (`update_id`) of rows with `now - update_dt <= REGISTRATION_TIMEOUT`,
collected into `used_link_ids`. -/
def live_update_ids (db : List User) (now : Int) : List Int :=
  (db.filter (fun u => now - u.update_dt ≤ REGISTRATION_TIMEOUT)).map (fun u => u.update_id)

/-- The `while True` draw loop of `register_user` (src/ionic/__main__.py
lines 204-207): successive `random.randrange(1000000, 9999999, 1)` draws are
modelled as the list `draws`; the loop returns the first draw not in `used`,
and `none` if the modelled draw sequence is exhausted (the real loop would
keep drawing). -/
def draw_link_id (draws : List Int) (used : List Int) : Option Int :=
  match draws with
  | [] => none
  | d :: ds => if d ∈ used then draw_link_id ds used else some d

/-- ORM UPDATE of the row found by primary key: overwrite `update_dt` and
`update_id` of the first (unique, since `id` is the primary key) row with this
id, leaving every other field and row alone. -/
def update_pending_fields : List User → Int → Int → Int → List User
  | [], _, _, _ => []
  | v :: vs, uid, link_id, now =>
    if v.id == uid then { v with update_dt := now, update_id := link_id } :: vs
    else v :: update_pending_fields vs uid link_id now

/-- The db mutation of `register_user` (src/ionic/__main__.py lines 209-220):
if no row with this id exists, insert `User(user_id, "")` (whose constructor
stamps `update_dt` with now) and set its `update_id` to the drawn token;
otherwise refresh the existing row's `update_dt` to now and overwrite its
`update_id`, leaving `tz` untouched. -/
def register_user_upsert (db : List User) (uid : Int) (link_id : Int) (now : Int) : List User :=
  match db.find? (fun u => u.id == uid) with
  | none => db ++ [{ id := uid, tz := "", update_id := link_id, update_dt := now }]
  | some _ => update_pending_fields db uid link_id now

/-- ORM UPDATE of the row found by token: overwrite `tz` of the first row
with this primary key, leaving every other field and row alone. -/
def set_tz_of_row : List User → Int → String → List User
  | [], _, _ => []
  | v :: vs, uid, tzStr =>
    if v.id == uid then { v with tz := tzStr } :: vs
    else v :: set_tz_of_row vs uid tzStr

/-- Outcome of the `POST /` confirmation endpoint `receive_timezone`
(src/ionic/web.py lines 64-85). Both abort sites render as HTTP 401 but are
distinct control paths: `unauthorizedNoUser` is the abort at line 80 (no row
carries the submitted token), `unauthorizedExpired` the abort at line 83
(row found but past `REGISTRATION_TIMEOUT`); `successTrue` is
`jsonify(success=True)`. -/
inductive TzSubmitResult where
  | unauthorizedNoUser
  | unauthorizedExpired
  | successTrue
deriving DecidableEq

/-- `receive_timezone` (src/ionic/web.py lines 64-85): look the row up by
`update_id == link_id`; abort 401 if absent; abort 401 if
`now - update_dt > REGISTRATION_TIMEOUT` (the abort raises inside the
transaction, which rolls back, so the table is returned unchanged); else set
that row's `tz` to the submitted string and commit. -/
def receive_timezone (db : List User) (link_id : Int) (tzStr : String) (now : Int) :
    TzSubmitResult × List User :=
  match db.find? (fun u => u.update_id == link_id) with
  | none => (TzSubmitResult.unauthorizedNoUser, db)
  | some u =>
    if now - u.update_dt > REGISTRATION_TIMEOUT then (TzSubmitResult.unauthorizedExpired, db)
    else (TzSubmitResult.successTrue, set_tz_of_row db u.id tzStr)

/-- C2: register_user's drawn token avoids every token whose record's
`pending_since` (`update_dt`) lies within `REGISTRATION_TIMEOUT` of now, and a
draw that collides with such a live token is discarded in favour of a redraw. -/
theorem c2_token_issuance_avoids_live_tokens (db : List User) (now : Int) (draws : List Int)
    (t d : Int) (ds : List Int) :
    (draw_link_id draws (live_update_ids db now) = some t → t ∉ live_update_ids db now)
    ∧ (d ∈ live_update_ids db now →
        draw_link_id (d :: ds) (live_update_ids db now) = draw_link_id ds (live_update_ids db now)) := by
  constructor
  · intro h
    induction draws with
    | nil => simp [draw_link_id] at h
    | cons x xs ih =>
      by_cases hx : x ∈ live_update_ids db now
      · exact ih (by simpa [draw_link_id, hx] using h)
      · simp only [draw_link_id, if_neg hx, Option.some.injEq] at h
        simpa [← h] using hx
  · intro hd
    simp [draw_link_id, hd]

/-- C2 witness: with one live pending record holding token 1234567 and draw
sequence [1234567, 7654321], the first draw collides and is redrawn, and the
issued token 7654321 is not a live token. -/
theorem c2_witness :
    (draw_link_id [1234567, 7654321] (live_update_ids [⟨1, "", 1234567, 0⟩] 500000000) = some 7654321 →
      7654321 ∉ live_update_ids [⟨1, "", 1234567, 0⟩] 500000000)
    ∧ ((1234567 : Int) ∈ live_update_ids [⟨1, "", 1234567, 0⟩] 500000000 →
        draw_link_id [1234567, 7654321] (live_update_ids [⟨1, "", 1234567, 0⟩] 500000000) =
          draw_link_id [7654321] (live_update_ids [⟨1, "", 1234567, 0⟩] 500000000)) :=
  c2_token_issuance_avoids_live_tokens [⟨1, "", 1234567, 0⟩] 500000000 [1234567, 7654321]
    7654321 1234567 [7654321]

/-- C3: a confirmation call whose token matches a record with
`now - update_dt > REGISTRATION_TIMEOUT` takes the expired abort path and
returns the table unchanged (no field of any row is mutated). -/
theorem c3_expired_token_no_mutation (db : List User) (link_id : Int) (tzStr : String)
    (now : Int) (u : User)
    (hfind : db.find? (fun v => v.update_id == link_id) = some u)
    (hexp : now - u.update_dt > REGISTRATION_TIMEOUT) :
    receive_timezone db link_id tzStr now = (TzSubmitResult.unauthorizedExpired, db) := by
  simp [receive_timezone, hfind, hexp]

/-- C3 witness: a record pending since 0 queried at timeout + 1 microsecond
is expired and untouched. -/
theorem c3_witness :
    receive_timezone [⟨1, "", 42, 0⟩] 42 "Europe/Paris" 600000001 =
      (TzSubmitResult.unauthorizedExpired, [⟨1, "", 42, 0⟩]) :=
  c3_expired_token_no_mutation [⟨1, "", 42, 0⟩] 42 "Europe/Paris" 600000001 ⟨1, "", 42, 0⟩
    (by decide) (by decide)

/-- Overwriting the pending fields of the row found by id moves `find?` by
that id onto the updated image of the row it found before. -/
lemma find?_update_pending_fields (db : List User) (uid link_id now : Int) (u : User)
    (hfind : db.find? (fun v => v.id == uid) = some u) :
    (update_pending_fields db uid link_id now).find? (fun v => v.id == uid) =
      some { u with update_dt := now, update_id := link_id } := by
  induction db with
  | nil => simp at hfind
  | cons v vs ih =>
    by_cases hv : v.id = uid
    · have huv : v = u := by
        have h1 : ((v :: vs).find? (fun w => w.id == uid)) = some v :=
          List.find?_cons_of_pos _ (by simp [hv])
        exact Option.some.inj (h1.symm.trans hfind)
      subst huv
      simp [update_pending_fields, hv, List.find?_cons_of_pos]
    · have hfind' : vs.find? (fun w => w.id == uid) = some u := by
        rw [List.find?_cons_of_neg _ (by simp [hv])] at hfind
        exact hfind
      rw [update_pending_fields, if_neg (by simp [hv]),
        List.find?_cons_of_neg _ (by simp [hv])]
      exact ih hfind'

/-- C9: re-running token issuance for an identity already present overwrites
only `update_id` (pending token) and `update_dt` (pending timestamp); the
stored `tz` (and the id) of that record are left unchanged. -/
theorem c9_reissue_preserves_timezone (db : List User) (uid link_id now : Int) (u : User)
    (hfind : db.find? (fun v => v.id == uid) = some u) :
    ∃ u', (register_user_upsert db uid link_id now).find? (fun v => v.id == uid) = some u'
      ∧ u'.tz = u.tz ∧ u'.id = u.id ∧ u'.update_id = link_id ∧ u'.update_dt = now := by
  refine ⟨{ u with update_dt := now, update_id := link_id }, ?_, rfl, rfl, rfl, rfl⟩
  simp only [register_user_upsert, hfind]
  exact find?_update_pending_fields db uid link_id now u hfind

/-- C9 witness: a registered user with zone America/New_York keeps that zone
across a re-issued registration token. -/
theorem c9_witness :
    ∃ u', (register_user_upsert [⟨7, "America/New_York", 111, 5⟩] 7 222 900).find?
        (fun v => v.id == 7) = some u'
      ∧ u'.tz = "America/New_York" ∧ u'.id = 7 ∧ u'.update_id = 222 ∧ u'.update_dt = 900 :=
  c9_reissue_preserves_timezone [⟨7, "America/New_York", 111, 5⟩] 7 222 900
    ⟨7, "America/New_York", 111, 5⟩ (by decide)

/-- C10: a confirmation call with a token inside its validity window stores
the submitted timezone string into the matched user record verbatim; there is
no validation against any zone list, so an arbitrary string is accepted. -/
theorem c10_timezone_stored_verbatim (db : List User) (link_id now : Int) (u : User)
    (tzStr : String)
    (hfind : db.find? (fun v => v.update_id == link_id) = some u)
    (hlive : now - u.update_dt ≤ REGISTRATION_TIMEOUT) :
    ∃ db', receive_timezone db link_id tzStr now = (TzSubmitResult.successTrue, db')
      ∧ ∃ u', db'.find? (fun v => v.id == u.id) = some u' ∧ u'.tz = tzStr := by
  have hnot : ¬ now - u.update_dt > REGISTRATION_TIMEOUT := not_lt.mpr hlive
  refine ⟨set_tz_of_row db u.id tzStr, ?_, ?_⟩
  · simp [receive_timezone, hfind, hnot]
  · have hmem : u ∈ db := List.mem_of_find?_eq_some hfind
    clear hfind
    induction db with
    | nil => simp at hmem
    | cons v vs ih =>
      by_cases hv : v.id = u.id
      · refine ⟨{ v with tz := tzStr }, ?_, rfl⟩
        rw [set_tz_of_row, if_pos (by simp [hv])]
        exact List.find?_cons_of_pos _ (by simp [hv])
      · have hmem' : u ∈ vs := by
          rcases List.mem_cons.mp hmem with h | h
          · exact absurd (h ▸ rfl) hv
          · exact h
        rw [set_tz_of_row, if_neg (by simp [hv])]
        rw [List.find?_cons_of_neg _ (by simp [hv])]
        exact ih hmem'

/-- C10 witness: the string "Not/A Zone", which is not an IANA zone name, is
accepted and persisted verbatim. -/
theorem c10_witness :
    ∃ db', receive_timezone [⟨3, "", 555, 0⟩] 555 "Not/A Zone" 100 =
        (TzSubmitResult.successTrue, db')
      ∧ ∃ u', db'.find? (fun v => v.id == (3 : Int)) = some u' ∧ u'.tz = "Not/A Zone" :=
  c10_timezone_stored_verbatim [⟨3, "", 555, 0⟩] 555 100 ⟨3, "", 555, 0⟩ "Not/A Zone"
    (by decide) (by decide)

/-!
Timezone conversion engine, `_convert_time_list_fm_user`
(src/ionic/__main__.py lines 124-144). The code attaches the user's IANA zone
to each naive datetime with `Arrow.fromdatetime(time, tz)` and converts with
`.to("UTC")`; the zone arithmetic is the tz-database semantics implemented by
the dateutil tzinfo objects Arrow uses (PEP 495, `fold=0` on naive input). A
zone is modelled by its piecewise-constant UTC offset around one offset
transition, which is the general local shape of every tz-database zone:
`off_before` microseconds of UTC offset before the transition instant
`trans_utc` (a UTC microsecond count), `off_after` after it. -/
structure Zone where
  off_before : Int
  off_after : Int
  trans_utc : Int
deriving DecidableEq

/-- Wall-clock reading `t` in the zone mapped to a UTC instant, with the
PEP 495 `fold=0` rule dateutil applies to a naive datetime: local readings
before the end of the transition region `trans_utc + max(off_before,
off_after)` (including readings inside a spring-forward gap and the first
occurrence of ambiguous fall-back readings) take the pre-transition offset,
later readings the post-transition offset. -/
def local_to_utc (z : Zone) (t : Int) : Int :=
  if t < z.trans_utc + max z.off_before z.off_after then t - z.off_before
  else t - z.off_after

/-- UTC instant `u` mapped to the zone's wall-clock reading: offset before
the transition instant for earlier instants, after it for later ones. -/
def utc_to_local (z : Zone) (u : Int) : Int :=
  if u < z.trans_utc then u + z.off_before else u + z.off_after

/-- The epoch seconds computed at src/ionic/__main__.py line 141:
`int((time - Arrow(1970, 1, 1)).total_seconds())` on a UTC instant of `m`
microseconds since the epoch. Python's `int()` truncates toward zero, which
on the exact rational `m / 10^6` is `Int.tdiv`. -/
def epoch_from_utc_micros (m : Int) : Int := Int.tdiv m 1000000

/-- The rendered tag of src/ionic/__main__.py line 143:
`"<t:" + str(time) + ":t>"`. -/
def discord_time_tag (m : Int) : String :=
  "<t:" ++ toString (epoch_from_utc_micros m) ++ ":t>"

/-- `_convert_time_list_fm_user` (src/ionic/__main__.py lines 124-144) on the
zone of the user's `tz` record: attach the zone, convert to UTC, truncate to
epoch seconds, render a `<t:..:t>` tag, order preserved. -/
def convert_time_list_fm_user (z : Zone) (times : List Int) : List String :=
  (times.map (local_to_utc z)).map discord_time_tag

/-- C6 counterexample: for the instant half a second before the epoch the
code embeds epoch value 0 (truncation toward zero), while
`floor(seconds since epoch)` is -1, so the claimed floor semantics fails
before the epoch. -/
theorem c6_counterexample :
    discord_time_tag (-500000) = "<t:0:t>"
      ∧ Int.fdiv (-500000) 1000000 = -1 ∧ (0 : Int) ≠ -1 := by
  refine ⟨rfl, by decide, by decide⟩

/-- C6 (amended): the epoch value embedded in the rendered tag is the
truncation toward zero of the seconds elapsed since 1970-01-01T00:00:00Z;
it equals the floor of that quantity for every instant at or after the epoch
and for every instant falling on a whole second, but not for pre-epoch
instants with a fractional second. -/
theorem c6_epoch_floor_on_nonneg (m : Int) (h : 0 ≤ m ∨ (1000000 : Int) ∣ m) :
    discord_time_tag m = "<t:" ++ toString (Int.fdiv m 1000000) ++ ":t>" := by
  have : epoch_from_utc_micros m = Int.fdiv m 1000000 := by
    rcases h with h | h
    · unfold epoch_from_utc_micros
      rw [Int.tdiv_eq_ediv h (by decide), Int.fdiv_eq_ediv m (by decide)]
    · rcases h with ⟨k, rfl⟩
      unfold epoch_from_utc_micros
      rw [Int.mul_tdiv_cancel_left _ (by decide), Int.mul_fdiv_cancel_left _ (by decide)]
  rw [discord_time_tag, this]

/-- C6 witness: 1.5 seconds after the epoch renders as floor 1. -/
theorem c6_witness :
    discord_time_tag 1500000 = "<t:" ++ toString (Int.fdiv 1500000 1000000) ++ ":t>" :=
  c6_epoch_floor_on_nonneg 1500000 (Or.inl (by decide))

/-- C7 counterexample: in a zone shaped like America/New_York at the 2021
spring-forward transition (offset -5h = -18000000000 us before, -4h =
-14400000000 us after, transition at UTC instant 0), the nonexistent
wall-clock reading 02:30 (local microsecond count -16200000000, inside the
gap) does not round-trip: it comes back as 03:30 (-12600000000). -/
theorem c7_counterexample :
    utc_to_local ⟨-18000000000, -14400000000, 0⟩
        (local_to_utc ⟨-18000000000, -14400000000, 0⟩ (-16200000000)) = -12600000000
      ∧ (-12600000000 : Int) ≠ -16200000000 := by
  refine ⟨by decide, by decide⟩

/-- C7 (amended): attaching the zone, converting to UTC, and converting back
yields the original naive instant for every wall-clock reading that exists in
the zone, i.e. every reading outside the spring-forward gap
`[trans_utc + off_before, trans_utc + max(off_before, off_after))`; readings
inside the gap come back shifted by the transition's offset change. -/
theorem c7_roundtrip_outside_gap (z : Zone) (t : Int)
    (h : t < z.trans_utc + z.off_before ∨ z.trans_utc + max z.off_before z.off_after ≤ t) :
    utc_to_local z (local_to_utc z t) = t := by
  unfold local_to_utc utc_to_local
  rcases le_total z.off_before z.off_after with hba | hba
  · rw [max_eq_right hba] at h ⊢
    split_ifs <;> omega
  · rw [max_eq_left hba] at h ⊢
    split_ifs <;> omega

/-- C7 witness: in the New-York-shaped zone, the valid reading 01:30
(-19800000000 us, before the gap) round-trips to itself. -/
theorem c7_witness :
    utc_to_local ⟨-18000000000, -14400000000, 0⟩
        (local_to_utc ⟨-18000000000, -14400000000, 0⟩ (-19800000000)) = -19800000000 :=
  c7_roundtrip_outside_gap ⟨-18000000000, -14400000000, 0⟩ (-19800000000)
    (Or.inl (by decide))

/-!
Token extractor: `rgx_dt_markers` (src/ionic/__main__.py lines 33-35) is

  `(?!<(@|!|#|@!|@&)[0-9]+>|<a{0,1}:[a-zA-Z0-9_.]{2,32}:[0-9]+>|<t:[0-9]+:[a-zA-Z]{0,1}>)(<[^>]+>)`

and `_time_list_from_string` (lines 79-111) runs `findall`, strips the angle
brackets of each match, discards matches whose stripped text starts with
"http", feeds each survivor to `dateparser.parse`, and keeps results that are
non-None `dt.datetime` values. The three lookahead alternatives (user/channel
mention, custom emoji, rendered time tag) are modelled as anchored character
scanners; `findall` is modelled as the standard left-to-right scan that
advances one character on a failed match position and past the match
otherwise. -/

/-- After one-or-more ASCII digits, the closing angle bracket. -/
def restDigitsGt : List Char → Bool
  | [] => false
  | c :: cs => c = '>' || (c.isDigit && restDigitsGt cs)

/-- `[0-9]+>` anchored: at least one digit, then the closing bracket. -/
def digitsThenGt : List Char → Bool
  | [] => false
  | c :: cs => c.isDigit && restDigitsGt cs

/-- The mention alternative `<(@|!|#|@!|@&)[0-9]+>` anchored at the start of
the list; the regex alternation amounts to one of the five sigils followed by
digits and the closing bracket. -/
def isMention : List Char → Bool
  | '<' :: '@' :: '!' :: rest => digitsThenGt rest
  | '<' :: '@' :: '&' :: rest => digitsThenGt rest
  | '<' :: '@' :: rest => digitsThenGt rest
  | '<' :: '!' :: rest => digitsThenGt rest
  | '<' :: '#' :: rest => digitsThenGt rest
  | _ => false

/-- A character of the custom-emoji name class `[a-zA-Z0-9_.]`. -/
def nameChar (c : Char) : Bool := c.isAlpha || c.isDigit || c = '_' || c = '.'

/-- Length of the maximal run of name characters, with the remainder. -/
def takeNameRun : List Char → Nat × List Char
  | [] => (0, [])
  | c :: cs =>
    if nameChar c then
      let p := takeNameRun cs
      (p.1 + 1, p.2)
    else (0, c :: cs)

/-- Tail of the emoji alternative after its first colon:
`[a-zA-Z0-9_.]{2,32}:[0-9]+>`; the name run is maximal since a colon is not a
name character, so the counted repetition holds exactly when the run length
lies in [2, 32]. -/
def emojiAfterColon (cs : List Char) : Bool :=
  let p := takeNameRun cs
  decide (2 ≤ p.1) && decide (p.1 ≤ 32) &&
    (match p.2 with
     | ':' :: r => digitsThenGt r
     | _ => false)

/-- The custom-emoji alternative `<a{0,1}:[a-zA-Z0-9_.]{2,32}:[0-9]+>`
anchored at the start of the list. -/
def isEmojiElem : List Char → Bool
  | '<' :: 'a' :: ':' :: rest => emojiAfterColon rest
  | '<' :: ':' :: rest => emojiAfterColon rest
  | _ => false

/-- Tail of the time-tag alternative after its digits: `:[a-zA-Z]{0,1}>`. -/
def tagEnd : List Char → Bool
  | ':' :: '>' :: _ => true
  | ':' :: c :: '>' :: _ => c.isAlpha
  | _ => false

/-- After one-or-more digits, the `tagEnd` tail. -/
def restDigitsTag : List Char → Bool
  | [] => false
  | c :: cs => if c.isDigit then restDigitsTag cs else tagEnd (c :: cs)

/-- `[0-9]+:[a-zA-Z]{0,1}>` anchored. -/
def digits1Tag : List Char → Bool
  | [] => false
  | c :: cs => c.isDigit && restDigitsTag cs

/-- The rendered-time-tag alternative `<t:[0-9]+:[a-zA-Z]{0,1}>` anchored at
the start of the list. -/
def isTimeTag : List Char → Bool
  | '<' :: 't' :: ':' :: rest => digits1Tag rest
  | _ => false

/-- The negative-lookahead body: any of the three platform-markup
alternatives matches here. -/
def isDiscordElem (cs : List Char) : Bool :=
  isMention cs || isEmojiElem cs || isTimeTag cs

/-- Split at the first `>`: the characters before it (the `[^>]+` body, which
regex greed cannot extend past the first `>`) and the characters after it. -/
def splitAtGt : List Char → Option (List Char × List Char)
  | [] => none
  | c :: cs =>
    if c = '>' then some ([], cs)
    else
      match splitAtGt cs with
      | none => none
      | some (body, rest) => some (c :: body, rest)

/-- The `findall` scan, fuelled for structural recursion (each step consumes
at least one character, so fuel = length of the text always suffices): at a
`<` where the lookahead rejects platform markup and a nonempty `[^>]+>` body
follows, emit the full `<...>` match and resume after it; otherwise advance
one character, as the regex engine does on a failed match position. -/
def findMarkersFuel : Nat → List Char → List (List Char)
  | 0, _ => []
  | _, [] => []
  | fuel + 1, c :: cs =>
    if c = '<' && !isDiscordElem (c :: cs) then
      match splitAtGt cs with
      | some (body, rest) =>
        if body.isEmpty then findMarkersFuel fuel cs
        else ('<' :: (body ++ ['>'])) :: findMarkersFuel fuel rest
      | none => findMarkersFuel fuel cs
    else findMarkersFuel fuel cs

/-- `rgx_dt_markers.findall(text)` restricted to the second capturing group,
i.e. the full `<...>` matches (src/ionic/__main__.py lines 90-93). -/
def findMarkers (cs : List Char) : List (List Char) :=
  findMarkersFuel cs.length cs

/-- `time.startswith("http")` (src/ionic/__main__.py line 97). -/
def startsWithHttp (s : String) : Bool := "http".data.isPrefixOf s.data

/-- The candidate list of `_time_list_from_string` just before parsing
(src/ionic/__main__.py lines 90-97): matches with brackets stripped
(`time[1:-1]`), then the ones starting with "http" discarded. -/
def candidateList (text : String) : List String :=
  ((findMarkers text.data).map (fun m => String.mk ((m.drop 1).dropLast))).filter
    (fun c => !startsWithHttp c)

/-- The claim's reading of "contains a URL": an `http://` or `https://`
scheme occurs anywhere in the candidate. -/
def containsHttpUrl (s : String) : Bool :=
  s.data.tails.any (fun t => "http://".data.isPrefixOf t || "https://".data.isPrefixOf t)

/-- C4 counterexample: the bracketed candidate `<6pm and http://x.co> `
contains a URL yet survives into the extracted candidate list, because the
code only discards candidates that START with "http". -/
theorem c4_counterexample :
    candidateList "see <6pm and http://x.co> later" = ["6pm and http://x.co"]
      ∧ containsHttpUrl "6pm and http://x.co" = true := by
  exact ⟨rfl, rfl⟩

/-- C4 (amended): every bracketed candidate whose stripped text starts with
"http" is excluded from the extracted candidate list; a candidate merely
containing a URL elsewhere in its text is kept. -/
theorem c4_candidates_never_start_with_http (text c : String)
    (h : c ∈ candidateList text) : startsWithHttp c = false := by
  have h2 := (List.mem_filter.mp h).2
  simpa using h2

/-- C4 witness: the candidate extracted from "at <6pm>" does not start with
"http". -/
theorem c4_witness :
    ("6pm" ∈ candidateList "at <6pm>") ∧ startsWithHttp "6pm" = false :=
  ⟨by decide, c4_candidates_never_start_with_http "at <6pm>" "6pm" (by decide)⟩

/-- A Python value as seen by the adapter around `dateparser.parse`: `None`,
a `dt.datetime` (microseconds), or some other object. -/
inductive PyVal where
  | pyNone
  | pyDatetime (micros : Int)
  | pyOther
deriving DecidableEq

/-- `isinstance(time, dt.datetime)` (src/ionic/__main__.py line 110). -/
def isDt : PyVal → Bool
  | PyVal.pyDatetime _ => true
  | _ => false

/-- The parse list comprehension (src/ionic/__main__.py lines 99-106): each
candidate is fed to the external parser in order; there is no try/except, so
the first raised exception aborts the whole comprehension and propagates
(`Except.error`). -/
def parseStage (parseFn : String → Except Unit PyVal) : List String → Except Unit (List PyVal)
  | [] => Except.ok []
  | c :: cs =>
    match parseFn c with
    | Except.error e => Except.error e
    | Except.ok v =>
      match parseStage parseFn cs with
      | Except.error e => Except.error e
      | Except.ok vs => Except.ok (v :: vs)

/-- `_time_list_from_string` (src/ionic/__main__.py lines 79-111) with the
external `dateparser.parse` abstracted as `parseFn`: extract candidates,
parse each, filter out `None` results (line 108) and non-datetime results
(line 110). -/
def time_list_from_string (parseFn : String → Except Unit PyVal) (text : String) :
    Except Unit (List PyVal) :=
  match parseStage parseFn (candidateList text) with
  | Except.error e => Except.error e
  | Except.ok vs =>
    Except.ok ((vs.filter (fun v => !(v == PyVal.pyNone))).filter (fun v => isDt v))

/-- A candidate list with no raising parse produces an ok value. -/
lemma parseStage_ok (parseFn : String → Except Unit PyVal) (cs : List String)
    (h : ∀ c ∈ cs, ∃ v, parseFn c = Except.ok v) :
    ∃ vs, parseStage parseFn cs = Except.ok vs := by
  induction cs with
  | nil => exact ⟨[], rfl⟩
  | cons c cs ih =>
    obtain ⟨v, hv⟩ := h c (List.mem_cons_self c cs)
    obtain ⟨vs, hvs⟩ := ih (fun x hx => h x (List.mem_cons_of_mem _ hx))
    exact ⟨v :: vs, by simp [parseStage, hv, hvs]⟩

/-- A raising parse on any candidate aborts the whole comprehension. -/
lemma parseStage_error (parseFn : String → Except Unit PyVal) (cs : List String)
    (c : String) (hc : c ∈ cs) (he : parseFn c = Except.error ()) :
    parseStage parseFn cs = Except.error () := by
  induction cs with
  | nil => simp at hc
  | cons x xs ih =>
    rcases List.mem_cons.mp hc with h | h
    · subst h
      simp [parseStage, he]
    · cases hx : parseFn x with
      | error e =>
        cases e
        simp [parseStage, hx]
      | ok v =>
        simp [parseStage, hx, ih h]

/-- C5 counterexample: a parser that raises on the candidate "6pm" makes
`_time_list_from_string` itself raise (the exception propagates to the
caller), instead of dropping the candidate silently. -/
theorem c5_counterexample :
    time_list_from_string (fun _ => Except.error ()) "at <6pm>" = Except.error () := by
  rfl

/-- C5 (amended): a `None` result and a non-datetime result are dropped
silently — when no candidate's parse raises, the adapter returns normally and
its output holds only datetime values — but a raised parser exception is not
caught and propagates out of `_time_list_from_string`. -/
theorem c5_parse_failure_modes (parseFn : String → Except Unit PyVal) (text : String) :
    ((∀ c ∈ candidateList text, ∃ v, parseFn c = Except.ok v) →
      ∃ l, time_list_from_string parseFn text = Except.ok l ∧ ∀ v ∈ l, isDt v = true)
    ∧ (∀ c ∈ candidateList text, parseFn c = Except.error () →
        time_list_from_string parseFn text = Except.error ()) := by
  constructor
  · intro h
    obtain ⟨vs, hvs⟩ := parseStage_ok parseFn _ h
    refine ⟨(vs.filter (fun v => !(v == PyVal.pyNone))).filter (fun v => isDt v),
      by simp [time_list_from_string, hvs], ?_⟩
    intro v hv
    exact (List.mem_filter.mp hv).2
  · intro c hc he
    simp [time_list_from_string, parseStage_error parseFn _ c hc he]

/-- C5 witness: on "<noon> ok", a parser returning a datetime yields a normal
datetime-only result, and a raising parser propagates its exception. -/
theorem c5_witness :
    (∃ l, time_list_from_string (fun _ => Except.ok (PyVal.pyDatetime 43200000000)) "<noon> ok" =
        Except.ok l ∧ ∀ v ∈ l, isDt v = true)
    ∧ time_list_from_string (fun _ => Except.error ()) "<noon> ok" = Except.error () :=
  ⟨(c5_parse_failure_modes (fun _ => Except.ok (PyVal.pyDatetime 43200000000)) "<noon> ok").1
      (fun c _ => ⟨PyVal.pyDatetime 43200000000, rfl⟩),
   (c5_parse_failure_modes (fun _ => Except.error ()) "<noon> ok").2 "noon" (by decide) rfl⟩

/-!
The time-message handler `time_message_handler` (src/ionic/__main__.py
lines 254-319) and its registration wait loop (lines 296-311). -/

/-- `rgx_dt_markers.sub(time, reply, count=1)` (src/ionic/__main__.py
line 162): replace the first marker match (same scan as `findall`) by the
rendered tag, leaving the rest of the text untouched. -/
def rgx_sub_once (tag : List Char) : List Char → List Char
  | [] => []
  | c :: cs =>
    if c = '<' && !isDiscordElem (c :: cs) then
      match splitAtGt cs with
      | some (body, rest) =>
        if body.isEmpty then c :: rgx_sub_once tag cs
        else tag ++ rest
      | none => c :: rgx_sub_once tag cs
    else c :: rgx_sub_once tag cs

/-- `_embed_from_user_times_and_text` (src/ionic/__main__.py lines 155-164):
substitute each converted tag for the next marker in the original text, in
order. -/
def embed_description (content : String) (tags : List String) : String :=
  String.mk (tags.foldl (fun acc tag => rgx_sub_once tag.data acc) content.data)

/-- What the handler does with an inbound message before any waiting:
nothing, an immediate converted reply, or a placeholder reply plus a
registration link sent privately (`message.respond(...)` then
`register_user`, src/ionic/__main__.py lines 286-295). -/
inductive InitialAction where
  | ignored
  | convertedReply
  | placeholderAndRegistration
deriving DecidableEq

/-- `user is None or user.tz == ""` (src/ionic/__main__.py line 285). -/
def is_user_not_registered (user? : Option User) : Bool :=
  match user? with
  | none => true
  | some u => u.tz == ""

/-- The branch structure of `time_message_handler` up to the wait loop
(src/ionic/__main__.py lines 263-295): bots and system authors are ignored,
as are falsy (absent or empty) contents and messages with no parsed times;
an unregistered author gets the placeholder + registration-link path, a
registered one an immediate converted reply. `timeList` is the parsed result
of `_time_list_from_string` on the content. -/
def time_message_handler_decision (authorIsBot authorIsSystem : Bool)
    (content : Option String) (timeList : List PyVal) (user? : Option User) : InitialAction :=
  if authorIsBot || authorIsSystem then InitialAction.ignored
  else
    match content with
    | none => InitialAction.ignored
    | some c =>
      if c == "" then InitialAction.ignored
      else if timeList.length == 0 then InitialAction.ignored
      else if is_user_not_registered user? then InitialAction.placeholderAndRegistration
      else InitialAction.convertedReply

/-- Terminal state of the wait loop on the placeholder reply. -/
inductive WaiterOutcome where
  | deletedPlaceholder
  | editedPlaceholder (embed : String)
  | stillPolling
  | raisedError
deriving DecidableEq

/-- The wait loop of `time_message_handler` (src/ionic/__main__.py
lines 296-311), one iteration per 10-second poll. Each poll observes the
current clock and the user row re-read from the db. The loop deletes the
placeholder when the poll's clock is more than `REGISTRATION_TIMEOUT` past
the row's `update_dt`, keeps polling while the timezone is still empty, and
otherwise edits the placeholder with the embed rendered from the observed
row (`render` stands for `_embed_from_user_times_and_text` applied to the
original content and time list). A poll that finds no row raises
(`user.update_dt` is evaluated on `None` before the `user is None` test on
line 302). -/
def waiter_loop (render : User → String) : List (Int × Option User) → WaiterOutcome
  | [] => WaiterOutcome.stillPolling
  | (now, u?) :: rest =>
    match u? with
    | none => WaiterOutcome.raisedError
    | some u =>
      if now - u.update_dt > REGISTRATION_TIMEOUT then WaiterOutcome.deletedPlaceholder
      else if u.tz == "" then waiter_loop render rest
      else WaiterOutcome.editedPlaceholder (render u)

/-- Polls that observe a still-empty timezone within the timeout are skipped
by the wait loop. -/
lemma waiter_loop_skip (render : User → String) (pre : List (Int × User))
    (h : ∀ p ∈ pre, p.2.tz = "" ∧ p.1 - p.2.update_dt ≤ REGISTRATION_TIMEOUT)
    (tail : List (Int × Option User)) :
    waiter_loop render (pre.map (fun p => (p.1, some p.2)) ++ tail) = waiter_loop render tail := by
  induction pre with
  | nil => rfl
  | cons p ps ih =>
    obtain ⟨htz, hto⟩ := h p (List.mem_cons_self p ps)
    have hnot : ¬ p.1 - p.2.update_dt > REGISTRATION_TIMEOUT := not_lt.mpr hto
    simp only [List.map_cons, List.cons_append, waiter_loop, hnot, if_false, htz,
      beq_self_eq_true, if_true]
    exact ih (fun q hq => h q (List.mem_cons_of_mem _ hq))

/-- Substituting a single rendered tag into the scenario text
"see you at <6pm>" replaces the marker and keeps the prefix. -/
lemma embed_one_tag (tag : String) :
    embed_description "see you at <6pm>" [tag] = "see you at " ++ tag := by
  have h : rgx_sub_once tag.data ("see you at <6pm>".data)
      = "see you at ".data ++ (tag.data ++ []) := rfl
  rw [List.append_nil] at h
  show String.mk (rgx_sub_once tag.data "see you at <6pm>".data) = "see you at " ++ tag
  rw [h]
  rfl

/-- C1: an inbound message with parsed time tokens from an unregistered
author (absent row or empty timezone) takes the placeholder-plus-private-
registration-link path; the wait loop edits the placeholder with the rendered
embed at the first poll that observes a non-empty timezone within
`REGISTRATION_TIMEOUT` of `update_dt` (the handshake start), deletes it at a
poll past the timeout with no registration observed before, and on the
scenario text "see you at <6pm>" the rendered embed is the text with the one
marker replaced by the rendered time tag. -/
theorem c1_unregistered_handshake_lifecycle :
    (∀ (content : String) (timeList : List PyVal) (user? : Option User),
      content ≠ "" → timeList ≠ [] → is_user_not_registered user? = true →
      time_message_handler_decision false false (some content) timeList user? =
        InitialAction.placeholderAndRegistration)
    ∧ (∀ (render : User → String) (pre : List (Int × User)) (now : Int) (u : User)
        (rest : List (Int × Option User)),
        (∀ p ∈ pre, p.2.tz = "" ∧ p.1 - p.2.update_dt ≤ REGISTRATION_TIMEOUT) →
        u.tz ≠ "" → now - u.update_dt ≤ REGISTRATION_TIMEOUT →
        waiter_loop render (pre.map (fun p => (p.1, some p.2)) ++ (now, some u) :: rest) =
          WaiterOutcome.editedPlaceholder (render u))
    ∧ (∀ (render : User → String) (pre : List (Int × User)) (now : Int) (u : User)
        (rest : List (Int × Option User)),
        (∀ p ∈ pre, p.2.tz = "" ∧ p.1 - p.2.update_dt ≤ REGISTRATION_TIMEOUT) →
        now - u.update_dt > REGISTRATION_TIMEOUT →
        waiter_loop render (pre.map (fun p => (p.1, some p.2)) ++ (now, some u) :: rest) =
          WaiterOutcome.deletedPlaceholder)
    ∧ (∀ (z : Zone) (t : Int),
        embed_description "see you at <6pm>" (convert_time_list_fm_user z [t]) =
          "see you at " ++ discord_time_tag (local_to_utc z t)) := by
  refine ⟨?_, ?_, ?_, ?_⟩
  · intro content timeList user? hc ht hu
    have hc' : (content == "") = false := beq_eq_false_iff_ne.mpr hc
    have ht' : (timeList.length == 0) = false :=
      beq_eq_false_iff_ne.mpr (fun h => ht (List.length_eq_zero.mp h))
    simp [time_message_handler_decision, hc', ht', hu]
  · intro render pre now u rest hpre htz hle
    rw [waiter_loop_skip render pre hpre]
    have hnot : ¬ now - u.update_dt > REGISTRATION_TIMEOUT := not_lt.mpr hle
    have htz' : (u.tz == "") = false := beq_eq_false_iff_ne.mpr htz
    simp [waiter_loop, hnot, htz']
  · intro render pre now u rest hpre hgt
    rw [waiter_loop_skip render pre hpre]
    simp [waiter_loop, hgt]
  · intro z t
    exact embed_one_tag (discord_time_tag (local_to_utc z t))

/-- C1 witness: the scenario message from an author with no row takes the
handshake path; with one empty-timezone poll at 100 us, a poll at 200 us
seeing zone America/New_York edits the placeholder, a poll at 700000000 us
(past the 600000000 us timeout) still unregistered deletes it; and the
rendered embed for the scenario text carries the one converted tag. -/
theorem c1_witness :
    time_message_handler_decision false false (some "see you at <6pm>")
        [PyVal.pyDatetime 64800000000] none = InitialAction.placeholderAndRegistration
    ∧ waiter_loop (fun u => u.tz) ([(100, ⟨9, "", 77, 0⟩)].map (fun p => (p.1, some p.2)) ++
        (200, some ⟨9, "America/New_York", 77, 0⟩) :: []) =
        WaiterOutcome.editedPlaceholder "America/New_York"
    ∧ waiter_loop (fun u => u.tz) ([(100, ⟨9, "", 77, 0⟩)].map (fun p => (p.1, some p.2)) ++
        (700000000, some ⟨9, "", 77, 0⟩) :: []) = WaiterOutcome.deletedPlaceholder
    ∧ embed_description "see you at <6pm>" (convert_time_list_fm_user ⟨0, 0, 0⟩ [64800000000]) =
        "see you at " ++ discord_time_tag (local_to_utc ⟨0, 0, 0⟩ 64800000000) :=
  ⟨c1_unregistered_handshake_lifecycle.1 "see you at <6pm>" [PyVal.pyDatetime 64800000000] none
      (by decide) (by decide) rfl,
   c1_unregistered_handshake_lifecycle.2.1 (fun u => u.tz) [(100, ⟨9, "", 77, 0⟩)] 200
      ⟨9, "America/New_York", 77, 0⟩ [] (by decide) (by decide) (by decide),
   c1_unregistered_handshake_lifecycle.2.2.1 (fun u => u.tz) [(100, ⟨9, "", 77, 0⟩)] 700000000
      ⟨9, "", 77, 0⟩ [] (by decide) (by decide),
   c1_unregistered_handshake_lifecycle.2.2.2 ⟨0, 0, 0⟩ 64800000000⟩

/-!
Reaction lifecycle controller. The spec's §4.7 component is not present in
src/: only its constants `MESSAGE_DELETE_REACTION` / `MESSAGE_REFRESH_REACTION`
(src/ionic/cfg.py lines 53-54) and the commented-out attachment points inside
`time_message_handler` (src/ionic/__main__.py lines 292-294 and 317-319)
remain, so the controller itself is modelled from the spec. -/

/-- `MESSAGE_DELETE_REACTION` (src/ionic/cfg.py line 53). -/
def MESSAGE_DELETE_REACTION : String := "❌"

/-- `MESSAGE_REFRESH_REACTION` (src/ionic/cfg.py line 54). -/
def MESSAGE_REFRESH_REACTION : String := "🔄"

/-- Outcome of a reaction-added event on a message. -/
inductive ReactionOutcome where
  | noAction
  | retractReactionOnly
  | deleteReply
  | refreshReply
deriving DecidableEq

/-- Modelled from the spec: the Reaction Lifecycle Controller of §4.7 is
absent from src/ (only the reaction constants and commented-out attachment
points remain). On a reaction-added event: ignore unless the reacted-to
message was authored by the bot, the reaction is not the bot's own, and the
symbol is one of the two recognized controls; then if the reacting user is
not the original (replied-to) message's author, retract the reaction and take
no further action; if authorized, "delete" removes the bot reply and
"refresh" regenerates it. -/
def reaction_lifecycle_controller (replyAuthoredByBot reactionByBot : Bool)
    (emojiSymbol : String) (originalAuthorId reactorId : Int) : ReactionOutcome :=
  if !replyAuthoredByBot then ReactionOutcome.noAction
  else if reactionByBot then ReactionOutcome.noAction
  else if emojiSymbol ≠ MESSAGE_DELETE_REACTION ∧ emojiSymbol ≠ MESSAGE_REFRESH_REACTION then
    ReactionOutcome.noAction
  else if reactorId ≠ originalAuthorId then ReactionOutcome.retractReactionOnly
  else if emojiSymbol = MESSAGE_DELETE_REACTION then ReactionOutcome.deleteReply
  else ReactionOutcome.refreshReply

/-- C8: a delete-control reaction on a bot reply by a user other than the
original message's author only retracts the reaction; the bot reply is not
deleted. -/
theorem c8_nonauthor_delete_reaction_retracted (emojiSymbol : String)
    (originalAuthorId reactorId : Int)
    (hdel : emojiSymbol = MESSAGE_DELETE_REACTION)
    (hne : reactorId ≠ originalAuthorId) :
    reaction_lifecycle_controller true false emojiSymbol originalAuthorId reactorId =
        ReactionOutcome.retractReactionOnly
      ∧ reaction_lifecycle_controller true false emojiSymbol originalAuthorId reactorId ≠
        ReactionOutcome.deleteReply := by
  subst hdel
  constructor
  · simp [reaction_lifecycle_controller, hne]
  · simp [reaction_lifecycle_controller, hne]

/-- C8 witness: user 2 reacting ❌ on the bot's reply to user 1's message
gets the reaction retracted and the reply kept. -/
theorem c8_witness :
    reaction_lifecycle_controller true false "❌" 1 2 = ReactionOutcome.retractReactionOnly
      ∧ reaction_lifecycle_controller true false "❌" 1 2 ≠ ReactionOutcome.deleteReply :=
  c8_nonauthor_delete_reaction_retracted "❌" 1 2 rfl (by decide)

end Ionic
